import Mathlib

/-!
Shallow embedding of the Campus Connect application (React + Supabase)
for claim verification.

Sources embedded here:
* `src/src/context/AuthContext.jsx` — auth provider: `fetchUserProfile`,
  `createFallbackProfile`, `setupTokenRefresh`, `signOut`.
* `src/src/components/RoleGuard.jsx` — role-gated rendering of protected views.
* `src/database/forum_schema.sql` — `post_upvotes` table (UNIQUE(post_id,user_id)),
  `forum_posts.upvotes` CHECK, `update_post_upvote_count` trigger,
  `toggle_post_upvote` function.
* `src/database/notices_schema.sql` — `valid_expiry_date` CHECK constraint.
* `NoticeForm` (`validateForm` / `handleSubmit`).
* `src/src/pages/Forum.jsx` — `fetchPosts`, `handleDeletePost`, `handleUpvote`
  error handling.
-/

namespace CampusConnect

/-! Section: profiles and the auth provider (`AuthContext.jsx`). -/

/-- A row of the `profiles` table as the client sees it
(fields used by `createFallbackProfile` in `AuthContext.jsx`). -/
structure Profile where
  id : String
  name : String
  role : String
  department : String
  year : String
  bio : String
  deriving Repr, DecidableEq

/-- Model of `createFallbackProfile` (AuthContext.jsx lines 124-136): the minimal
profile set immediately on fetch failure — id = the user's id, role
`student`, empty name/department/year/bio. -/
def createFallbackProfile (userId : String) : Profile :=
  { id := userId
    name := ""
    role := "student"
    department := ""
    year := ""
    bio := "" }

/-- Timeout passed to `setTimeout` in `fetchUserProfile`
(AuthContext.jsx line 78): 5000 ms. -/
def profileFetchTimeoutMs : Nat := 5000

/-- Outcome of the Supabase `profiles` query (`.select().eq('id',…).single()`):
`ok row` = `result.data` present with no error; `errorResult` = `result.error`
set; `noData` = neither error nor data; `thrown msg` = the promise rejected. -/
inductive FetchResult where
  | ok : Profile → FetchResult
  | errorResult : String → FetchResult
  | noData : FetchResult
  | thrown : String → FetchResult
  deriving Repr, DecidableEq

/-- Outcome of `Promise.race([fetchPromise, timeoutPromise])`:
the query's own outcome if it settles first, otherwise the timeout rejection. -/
inductive RaceOutcome where
  | settled : FetchResult → RaceOutcome
  | timedOut : RaceOutcome
  deriving Repr, DecidableEq

/-- The race in `fetchUserProfile` (AuthContext.jsx line 87): the query wins
exactly when it settles strictly before the 5000 ms timer fires. -/
def raceWithTimeout (queryDurationMs : Nat) (res : FetchResult) : RaceOutcome :=
  if queryDurationMs < profileFetchTimeoutMs then .settled res else .timedOut

/-- Model of `fetchUserProfile` (AuthContext.jsx lines 65-121), as the map from the
user id and the race outcome to the profile state it leaves behind
(`setProfile`). A `none` user id clears the profile; a successful query
stores the fetched row; an error result, missing data, thrown rejection or
timeout substitutes the fallback profile (never leaving it unset). -/
def fetchUserProfile (userId : Option String) (outcome : RaceOutcome) :
    Option Profile :=
  match userId with
  | none => none
  | some uid =>
    match outcome with
    | .settled (.ok row) => some row
    | .settled (.errorResult _) => some (createFallbackProfile uid)
    | .settled .noData => some (createFallbackProfile uid)
    | .settled (.thrown _) => some (createFallbackProfile uid)
    | .timedOut => some (createFallbackProfile uid)

/-- Model of `signOut` (AuthContext.jsx lines 425-439), as the map from the backend
result of `supabase.auth.signOut()` (`none` = success, `some msg` = error)
and the current `(user, profile)` state to the returned `{ error }` value and
the state it leaves behind. On success it clears both `user` and `profile`
and returns `{ error: null }`; on a backend error it throws before the
`setUser`/`setProfile` calls, so the catch returns `{ error: msg }` with the
state untouched; every path returns (nothing escapes the catch). -/
def signOut (backendError : Option String)
    (user : Option String) (profile : Option Profile) :
    Option String × Option String × Option Profile :=
  match backendError with
  | none => (none, none, none)
  | some msg => (some msg, user, profile)

/-! Section: role-gated rendering (`RoleGuard.jsx`). -/

/-- What the `RoleGuard` component renders. -/
inductive RenderResult where
  | loadingSpinner
  | loginPrompt
  | permissionUnverified
  | accessDenied
  | content
  deriving Repr, DecidableEq

/-- Model of `RoleGuard` (RoleGuard.jsx lines 4-67): a spinner while loading; a login
prompt without a user; a support message when the profile is missing or its
role is falsy (empty); otherwise the protected children exactly when
`roles.includes(profile.role)`, else the access-denied panel. -/
def roleGuard (loading : Bool) (user : Option String)
    (profile : Option Profile) (roles : List String) : RenderResult :=
  if loading then .loadingSpinner
  else
    match user with
    | none => .loginPrompt
    | some _ =>
      match profile with
      | none => .permissionUnverified
      | some p =>
        if p.role = "" then .permissionUnverified
        else if roles.contains p.role then .content
        else .accessDenied

/-! Section: forum database (`forum_schema.sql`).

`forum_posts` carries an `upvotes INTEGER DEFAULT 0 CHECK (upvotes >= 0)`
column; `post_upvotes(post_id, user_id)` carries `UNIQUE(post_id, user_id)`;
the `update_post_upvote_count` trigger fires AFTER INSERT OR DELETE on
`post_upvotes` FOR EACH ROW. Ids are modelled as naturals standing for the
UUIDs. -/

/-- A `forum_posts` row (the columns the claims touch). `upvotes` is an
integer column, so it is modelled as `Int`; the CHECK constraint, not the
type, is what keeps it non-negative. -/
structure ForumPost where
  id : Nat
  upvotes : Int
  deriving Repr, DecidableEq

/-- The forum database state: the `forum_posts` rows and the
`post_upvotes` rows, an upvote row being its `(post_id, user_id)` pair. -/
structure ForumDB where
  posts : List ForumPost
  upvoteRows : List (Nat × Nat)
  deriving Repr, DecidableEq

/-- The empty database, as created by the schema script. -/
def forumInit : ForumDB := ⟨[], []⟩

/-- Model of `UPDATE forum_posts SET upvotes = f(upvotes) WHERE id = postId`. -/
def bumpUpvotes (posts : List ForumPost) (postId : Nat) (f : Int → Int) :
    List ForumPost :=
  posts.map fun p => if p.id = postId then { p with upvotes := f p.upvotes } else p

/-- The INSERT branch of `update_post_upvote_count`
(forum_schema.sql lines 284-301): `SET upvotes = upvotes + 1` on the
upvoted post. -/
def upvoteInsertTrigger (db : ForumDB) (postId : Nat) : ForumDB :=
  { db with posts := bumpUpvotes db.posts postId (fun u => u + 1) }

/-- The DELETE branch of `update_post_upvote_count`:
`SET upvotes = GREATEST(upvotes - 1, 0)` on the post of the deleted row. -/
def upvoteDeleteTrigger (db : ForumDB) (postId : Nat) : ForumDB :=
  { db with posts := bumpUpvotes db.posts postId (fun u => max (u - 1) 0) }

/-- Model of `INSERT INTO post_upvotes (post_id, user_id) VALUES (p, u)` with the
`UNIQUE(post_id, user_id)` constraint: the insert is rejected (`none`) when
a row for the pair already exists; on success the AFTER INSERT trigger
increments the post's counter. -/
def insertUpvote (db : ForumDB) (p u : Nat) : Option ForumDB :=
  if (p, u) ∈ db.upvoteRows then none
  else some (upvoteInsertTrigger { db with upvoteRows := (p, u) :: db.upvoteRows } p)

/-- Model of `DELETE FROM post_upvotes WHERE post_id = p AND user_id = u`: every
matching row is removed, and the AFTER DELETE trigger fires once per
removed row, decrementing (clamped at zero) the post's counter. -/
def deleteUpvote (db : ForumDB) (p u : Nat) : ForumDB :=
  let n := db.upvoteRows.count (p, u)
  let db1 : ForumDB :=
    { db with upvoteRows := db.upvoteRows.filter (fun r => r ≠ (p, u)) }
  (List.range n).foldl (fun d _ => upvoteDeleteTrigger d p) db1

/-- Model of `toggle_post_upvote(post_uuid, user_uuid)`
(forum_schema.sql lines 344-370): if a row for the pair exists it is
deleted and FALSE returned; otherwise a row is inserted (the existence
check guarantees the UNIQUE constraint passes) and TRUE returned. Triggers
fire as part of each branch. -/
def toggle_post_upvote (db : ForumDB) (post_uuid user_uuid : Nat) :
    ForumDB × Bool :=
  let upvote_exists := (post_uuid, user_uuid) ∈ db.upvoteRows
  if upvote_exists then
    (deleteUpvote db post_uuid user_uuid, false)
  else
    (upvoteInsertTrigger
      { db with upvoteRows := (post_uuid, user_uuid) :: db.upvoteRows }
      post_uuid, true)

/-- Model of `INSERT INTO forum_posts`: rejected unless the primary key is fresh and
the `CHECK (upvotes >= 0)` constraint holds (the schema default is 0). -/
def insertPost (db : ForumDB) (post : ForumPost) : Option ForumDB :=
  if 0 ≤ post.upvotes ∧ db.posts.all (fun q => q.id ≠ post.id) then
    some { db with posts := post :: db.posts }
  else none

/-- Model of `DELETE FROM forum_posts WHERE id = p`: the post's upvote rows go with
it (`ON DELETE CASCADE` on `post_upvotes.post_id`). -/
def deletePost (db : ForumDB) (p : Nat) : ForumDB :=
  { posts := db.posts.filter (fun q => q.id ≠ p)
    upvoteRows := db.upvoteRows.filter (fun r => r.1 ≠ p) }

/-- One database operation, as admitted by the schema's constraints. -/
inductive DBStep : ForumDB → ForumDB → Prop where
  | insertPostStep (db : ForumDB) (post : ForumPost) (db2 : ForumDB) :
      insertPost db post = some db2 → DBStep db db2
  | deletePostStep (db : ForumDB) (p : Nat) : DBStep db (deletePost db p)
  | insertUpvoteStep (db : ForumDB) (p u : Nat) (db2 : ForumDB) :
      insertUpvote db p u = some db2 → DBStep db db2
  | deleteUpvoteStep (db : ForumDB) (p u : Nat) :
      DBStep db (deleteUpvote db p u)
  | toggleStep (db : ForumDB) (p u : Nat) :
      DBStep db (toggle_post_upvote db p u).1

/-- States reachable from the empty database through schema operations. -/
inductive Reachable : ForumDB → Prop where
  | init : Reachable forumInit
  | step {db db2 : ForumDB} : Reachable db → DBStep db db2 → Reachable db2

/-! Section: notices (`notices_schema.sql`).

The `valid_expiry_date` constraint is
`CHECK (expiry_date IS NULL OR expiry_date > publish_date)`;
`publish_date` is a nullable column with default `now()`. SQL CHECK
constraints evaluate in three-valued logic and reject a row only when the
expression is FALSE, so the comparison is embedded through a
three-valued boolean. Timestamps are modelled as integers. -/

/-- Three-valued SQL boolean. -/
inductive SqlTri where
  | tt
  | ff
  | unk
  deriving Repr, DecidableEq

/-- SQL OR over three-valued booleans. -/
def sqlOr : SqlTri → SqlTri → SqlTri
  | .tt, _ => .tt
  | _, .tt => .tt
  | .ff, .ff => .ff
  | _, _ => .unk

/-- SQL `IS NULL`. -/
def sqlIsNull (a : Option Int) : SqlTri :=
  match a with
  | none => .tt
  | some _ => .ff

/-- SQL `>` on nullable values: UNKNOWN when either side is NULL. -/
def sqlGt (a b : Option Int) : SqlTri :=
  match a, b with
  | some x, some y => if y < x then .tt else .ff
  | _, _ => .unk

/-- A CHECK constraint is violated only when its expression is FALSE. -/
def checkPasses (t : SqlTri) : Bool :=
  match t with
  | .ff => false
  | _ => true

/-- A `notices` row, restricted to the columns of the constraint. -/
structure NoticeRow where
  publish_date : Option Int
  expiry_date : Option Int
  deriving Repr, DecidableEq

/-- The `valid_expiry_date` constraint (notices_schema.sql lines 38-40):
`CHECK (expiry_date IS NULL OR expiry_date > publish_date)`. -/
def validExpiryCheck (r : NoticeRow) : Bool :=
  checkPasses (sqlOr (sqlIsNull r.expiry_date) (sqlGt r.expiry_date r.publish_date))

/-- The expiry-after-publish ordering as the spec words it: either
`expiry_date` is NULL, or `expiry_date` is strictly greater than
`publish_date`. -/
def expiryAfterPublishOrdering (r : NoticeRow) : Prop :=
  r.expiry_date = none ∨
    ∃ e p, r.expiry_date = some e ∧ r.publish_date = some p ∧ p < e

/-- An INSERT on `notices`: admitted exactly when the CHECK passes. -/
def insertNotice (db : List NoticeRow) (r : NoticeRow) :
    Option (List NoticeRow) :=
  if validExpiryCheck r then some (r :: db) else none

/-- An UPDATE of row `i` of `notices`: admitted exactly when the new
values pass the CHECK. -/
def updateNotice (db : List NoticeRow) (i : Nat) (r : NoticeRow) :
    Option (List NoticeRow) :=
  if validExpiryCheck r then some (db.set i r) else none

/-! Section: token refresh scheduling (`AuthContext.jsx`). -/

/-- Interval passed to `setInterval` in `setupTokenRefresh`
(AuthContext.jsx line 169): 90 minutes in milliseconds. -/
def tokenRefreshIntervalMs : Nat := 90 * 60 * 1000

/-- A Supabase session as seen by the timer callback. -/
structure Session where
  expires_at : Nat
  deriving Repr, DecidableEq

/-- One tick of the refresh interval (AuthContext.jsx lines 159-168):
`getSession`, then `refreshSession` exactly when a session exists.
Returns whether `refreshSession` was requested. -/
def refreshTick (session : Option Session) : Bool :=
  session.isSome

/-- The interval timer object returned by `setInterval`. -/
structure IntervalTimer where
  intervalMs : Nat
  active : Bool
  deriving Repr, DecidableEq

/-- Model of `setupTokenRefresh` (AuthContext.jsx lines 158-172): installs
the periodic timer with the fixed 90-minute period. -/
def setupTokenRefresh : IntervalTimer :=
  { intervalMs := tokenRefreshIntervalMs, active := true }

/-- The provider effect's cleanup (AuthContext.jsx lines 302-307):
`clearInterval(refreshInterval)` cancels the timer. -/
def providerCleanup (t : IntervalTimer) : IntervalTimer :=
  { t with active := false }

/-! Section: notice form validation (`NoticeForm`). -/

/-- The notice form's fields. -/
structure NoticeFormData where
  title : String
  content : String
  category : String
  deriving Repr, DecidableEq

/-- Model of `NoticeForm.validateForm`: the four checks in source order,
each failing one emitting its toast and returning false; all passing
returns true. -/
def validateForm (fd : NoticeFormData) : Bool × List String :=
  if fd.title.trim = "" then (false, ["Title is required"])
  else if fd.content.trim = "" then (false, ["Description is required"])
  else if fd.title.length > 200 then
    (false, ["Title must be less than 200 characters"])
  else if fd.content.length > 2000 then
    (false, ["Description must be less than 2000 characters"])
  else (true, [])

/-- Whether `NoticeForm.handleSubmit` reaches its `onSubmit` call: it
returns early unless `validateForm()` succeeded. -/
def handleSubmitCallsOnSubmit (fd : NoticeFormData) : Bool :=
  (validateForm fd).1

/-! Section: forum page error handling (`Forum.jsx`). -/

/-- Result of a Supabase call as destructured by the page handlers:
either data, or the `error` field set. -/
inductive SupabaseResult (α : Type) where
  | ok : α → SupabaseResult α
  | err : String → SupabaseResult α
  deriving Repr, DecidableEq

/-- Observable outcome of one forum-page operation: the toasts it emitted
and the exception, if any, escaping to its caller. -/
structure OpOutcome where
  toasts : List String
  thrown : Option String
  deriving Repr, DecidableEq

/-- Model of `fetchPosts` (Forum.jsx lines 44-82): on success stores the
fetched posts (`data || []` — ids stand for rows); on error the catch
logs, toasts `Failed to load posts` and swallows the exception, leaving
the posts state unset (`none`). -/
def fetchPosts (res : SupabaseResult (Option (List Nat))) :
    OpOutcome × Option (List Nat) :=
  match res with
  | .ok data => ({ toasts := [], thrown := none }, some (data.getD []))
  | .err _ => ({ toasts := ["Failed to load posts"], thrown := none }, none)

/-- Model of `handleDeletePost` (Forum.jsx lines 137-153): success toasts
`Post deleted successfully!`; failure toasts `Failed to delete post` and
then RE-THROWS the caught error (`throw error`). -/
def handleDeletePost (res : SupabaseResult Unit) : OpOutcome :=
  match res with
  | .ok _ => { toasts := ["Post deleted successfully!"], thrown := none }
  | .err e => { toasts := ["Failed to delete post"], thrown := some e }

/-- Model of `handleUpvote` (Forum.jsx lines 154-185): without a profile
only a login toast; otherwise the `toggle_post_upvote` RPC result updates
the local upvote set with a success toast, and on error the catch toasts
`Failed to update upvote` and swallows the exception. -/
def handleUpvote (profile : Option String) (postId : Nat)
    (res : SupabaseResult Bool) (userUpvotes : List Nat) :
    OpOutcome × List Nat :=
  match profile with
  | none =>
    ({ toasts := ["Please login to upvote posts"], thrown := none }, userUpvotes)
  | some _ =>
    match res with
    | .ok true =>
      ({ toasts := ["Post upvoted!"], thrown := none },
        if postId ∈ userUpvotes then userUpvotes else postId :: userUpvotes)
    | .ok false =>
      ({ toasts := ["Upvote removed"], thrown := none },
        userUpvotes.filter (fun x => x ≠ postId))
    | .err _ =>
      ({ toasts := ["Failed to update upvote"], thrown := none }, userUpvotes)

end CampusConnect

namespace CampusConnect

/-! Section: theorems. -/

/-- C1: for an authenticated user, `fetchUserProfile` races the query against
a 5-second timeout; on success it stores the fetched row, and on a query
error, missing data, thrown rejection or timeout it substitutes the default
minimal fallback profile (id = the user's id, role `student`, empty
name/department/year/bio) — the profile is never left unset. -/
theorem fetchUserProfile_fallback_on_failure :
    profileFetchTimeoutMs = 5000 ∧
    (∀ d r, raceWithTimeout d r = .timedOut ↔ profileFetchTimeoutMs ≤ d) ∧
    (∀ uid outcome, (fetchUserProfile (some uid) outcome).isSome) ∧
    (∀ uid row, fetchUserProfile (some uid) (.settled (.ok row)) = some row) ∧
    (∀ uid outcome, (∀ row, outcome ≠ .settled (.ok row)) →
      fetchUserProfile (some uid) outcome =
        some { id := uid, name := "", role := "student", department := "",
               year := "", bio := "" }) := by
  refine ⟨rfl, ?_, ?_, ?_, ?_⟩
  · intro d r
    unfold raceWithTimeout
    split <;> simp_all
  · intro uid outcome
    cases outcome with
    | settled res => cases res <;> simp [fetchUserProfile]
    | timedOut => simp [fetchUserProfile]
  · intro uid row
    rfl
  · intro uid outcome h
    cases outcome with
    | settled res =>
      cases res with
      | ok row => exact absurd rfl (h row)
      | errorResult e => rfl
      | noData => rfl
      | thrown e => rfl
    | timedOut => rfl

/-- Witness for C1's hypothesis: at a concrete non-success outcome the
fallback profile is produced. -/
theorem fetchUserProfile_fallback_on_failure_witness :
    fetchUserProfile (some "u1") .timedOut =
      some { id := "u1", name := "", role := "student", department := "",
             year := "", bio := "" } :=
  fetchUserProfile_fallback_on_failure.2.2.2.2 "u1" .timedOut
    (by intro row h; cases h)

/-- C2 counterexample: an application-code operation does decide whether a
user may see a protected view based on the user's role. With identical
loading/user/profile state except for the profile's role, `RoleGuard`
(application code, not a database policy) renders the access-denied panel
for a `student` and the protected content for an `admin`. -/
theorem roleGuard_decides_by_role_counterexample :
    roleGuard false (some "u1") (some (createFallbackProfile "u1"))
        ["admin", "teacher"] = .accessDenied ∧
    roleGuard false (some "u1")
        (some { createFallbackProfile "u1" with role := "admin" })
        ["admin", "teacher"] = .content := by
  constructor <;> rfl

/-- C2 amended: role-gated visibility is enforced not only by database RLS
policies but also by application code — for a loaded, authenticated user
whose profile has a non-empty role, `RoleGuard` renders the protected view
exactly when that role is in the allowed list. -/
theorem roleGuard_content_iff_role_allowed (u : String) (p : Profile)
    (roles : List String) (h : p.role ≠ "") :
    roleGuard false (some u) (some p) roles = .content ↔ p.role ∈ roles := by
  by_cases hmem : p.role ∈ roles <;> simp [roleGuard, h, hmem]

/-- Witness for C2 amended at a concrete admin profile. -/
theorem roleGuard_content_iff_role_allowed_witness :
    roleGuard false (some "u1")
        (some { createFallbackProfile "u1" with role := "admin" })
        ["admin", "teacher"] = .content ↔
      "admin" ∈ ["admin", "teacher"] :=
  roleGuard_content_iff_role_allowed "u1"
    { createFallbackProfile "u1" with role := "admin" }
    ["admin", "teacher"] (by decide)
/-! Helper lemmas for the forum database. -/

/-- Neither upvote-count trigger touches the `post_upvotes` rows. -/
theorem upvoteDeleteTrigger_upvoteRows (d : ForumDB) (pid : Nat) :
    (upvoteDeleteTrigger d pid).upvoteRows = d.upvoteRows := rfl

/-- Folding the delete trigger any number of times leaves the
`post_upvotes` rows unchanged. -/
theorem foldlDeleteTrigger_upvoteRows (l : List Nat) (pid : Nat)
    (d0 : ForumDB) :
    (l.foldl (fun d _ => upvoteDeleteTrigger d pid) d0).upvoteRows =
      d0.upvoteRows := by
  induction l generalizing d0 with
  | nil => rfl
  | cons x xs ih =>
    simp only [List.foldl_cons]
    rw [ih, upvoteDeleteTrigger_upvoteRows]

/-- After `deleteUpvote` exactly the rows of the targeted pair are gone. -/
theorem deleteUpvote_upvoteRows (db : ForumDB) (p u : Nat) :
    (deleteUpvote db p u).upvoteRows =
      db.upvoteRows.filter (fun r => r ≠ (p, u)) := by
  unfold deleteUpvote
  exact foldlDeleteTrigger_upvoteRows _ _ _

/-- The branch `toggle_post_upvote` takes when a row for the pair exists:
delete the pair's rows and return FALSE. -/
theorem toggle_eq_of_mem {d : ForumDB} {p u : Nat}
    (hmem : (p, u) ∈ d.upvoteRows) :
    toggle_post_upvote d p u = (deleteUpvote d p u, false) := by
  unfold toggle_post_upvote
  simp [hmem]

/-- The branch `toggle_post_upvote` takes when no row for the pair exists:
insert one (firing the increment trigger) and return TRUE. -/
theorem toggle_eq_of_not_mem {d : ForumDB} {p u : Nat}
    (hmem : (p, u) ∉ d.upvoteRows) :
    toggle_post_upvote d p u =
      (upvoteInsertTrigger { d with upvoteRows := (p, u) :: d.upvoteRows } p,
        true) := by
  unfold toggle_post_upvote
  simp [hmem]

/-- Filtering for an absent element yields nothing. -/
theorem filter_eq_nil_of_not_mem {α : Type} [DecidableEq α] {l : List α}
    {a : α} (h : a ∉ l) : l.filter (fun r => r = a) = [] := by
  induction l with
  | nil => rfl
  | cons x xs ih =>
    have hxa : ¬(x = a) := fun hx => h (hx ▸ List.mem_cons_self x xs)
    have hrest : a ∉ xs := fun hx => h (List.mem_cons_of_mem x hx)
    simp only [List.filter_cons, decide_eq_true_eq, hxa, ite_false]
    exact ih hrest

/-- In a duplicate-free list a present element is picked out exactly
once by filtering. -/
theorem filter_eq_singleton_of_nodup_mem {α : Type} [DecidableEq α]
    {l : List α} {a : α} (hnd : l.Nodup) (h : a ∈ l) :
    l.filter (fun r => r = a) = [a] := by
  induction l with
  | nil => cases h
  | cons x xs ih =>
    rw [List.nodup_cons] at hnd
    rcases List.mem_cons.mp h with rfl | hmem
    · simp only [List.filter_cons, decide_eq_true_eq, ite_true]
      rw [filter_eq_nil_of_not_mem hnd.1]
    · have hxa : ¬(x = a) := fun hx => hnd.1 (hx ▸ hmem)
      simp only [List.filter_cons, decide_eq_true_eq, hxa, ite_false]
      exact ih hnd.2 hmem

/-- An `UPDATE … SET upvotes = f(upvotes)` keeps every counter
non-negative provided `f` does. -/
theorem bumpUpvotes_nonneg {posts : List ForumPost} {pid : Nat}
    {f : Int → Int} (hf : ∀ x : Int, 0 ≤ x → 0 ≤ f x)
    (h : ∀ q ∈ posts, 0 ≤ q.upvotes) :
    ∀ r ∈ bumpUpvotes posts pid f, 0 ≤ r.upvotes := by
  intro r hr
  unfold bumpUpvotes at hr
  rcases List.mem_map.mp hr with ⟨q, hq, rfl⟩
  by_cases hid : q.id = pid
  · simp only [hid, if_true]
    exact hf _ (h q hq)
  · simp only [hid, if_false]
    exact h q hq

/-- Folding the delete trigger keeps every counter non-negative. -/
theorem foldlDeleteTrigger_posts_nonneg (l : List Nat) (pid : Nat)
    (d0 : ForumDB) (h : ∀ q ∈ d0.posts, 0 ≤ q.upvotes) :
    ∀ q ∈ (l.foldl (fun d _ => upvoteDeleteTrigger d pid) d0).posts,
      0 ≤ q.upvotes := by
  induction l generalizing d0 with
  | nil => exact h
  | cons x xs ih =>
    simp only [List.foldl_cons]
    refine ih _ ?_
    intro q hq
    have hq2 : q ∈ bumpUpvotes d0.posts pid (fun v => max (v - 1) 0) := hq
    exact bumpUpvotes_nonneg (fun y _ => le_max_right _ _) h q hq2

/-- Every database operation preserves distinctness of the
`(post_id, user_id)` pairs, the state the UNIQUE constraint maintains. -/
theorem dbStep_upvoteRows_nodup {db db2 : ForumDB} (hs : DBStep db db2)
    (h : db.upvoteRows.Nodup) : db2.upvoteRows.Nodup := by
  cases hs with
  | insertPostStep post d2 heq =>
    unfold insertPost at heq
    split at heq
    · cases heq; exact h
    · cases heq
  | deletePostStep p =>
    exact h.filter _
  | insertUpvoteStep p u d2 heq =>
    unfold insertUpvote at heq
    split at heq
    · cases heq
    · next hnot =>
      cases heq
      exact List.nodup_cons.mpr ⟨hnot, h⟩
  | deleteUpvoteStep p u =>
    rw [deleteUpvote_upvoteRows]
    exact h.filter _
  | toggleStep p u =>
    by_cases hmem : (p, u) ∈ db.upvoteRows
    · rw [toggle_eq_of_mem hmem]
      show (deleteUpvote db p u).upvoteRows.Nodup
      rw [deleteUpvote_upvoteRows]
      exact h.filter _
    · rw [toggle_eq_of_not_mem hmem]
      exact List.nodup_cons.mpr ⟨hmem, h⟩

/-- Every database operation preserves non-negativity of all post
counters. -/
theorem dbStep_posts_nonneg {db db2 : ForumDB} (hs : DBStep db db2)
    (h : ∀ q ∈ db.posts, 0 ≤ q.upvotes) : ∀ q ∈ db2.posts, 0 ≤ q.upvotes := by
  cases hs with
  | insertPostStep post d2 heq =>
    unfold insertPost at heq
    split at heq
    · next hc =>
      cases heq
      intro q hq
      rcases List.mem_cons.mp hq with rfl | hq2
      · exact hc.1
      · exact h q hq2
    · cases heq
  | deletePostStep p =>
    intro q hq
    exact h q (List.mem_filter.mp hq).1
  | insertUpvoteStep p u d2 heq =>
    unfold insertUpvote at heq
    split at heq
    · cases heq
    · cases heq
      intro q hq
      have hq2 : q ∈ bumpUpvotes db.posts p (fun v => v + 1) := hq
      exact bumpUpvotes_nonneg (fun y hy => by omega) h q hq2
  | deleteUpvoteStep p u =>
    unfold deleteUpvote
    exact foldlDeleteTrigger_posts_nonneg _ _ _ h
  | toggleStep p u =>
    by_cases hmem : (p, u) ∈ db.upvoteRows
    · rw [toggle_eq_of_mem hmem]
      show ∀ q ∈ (deleteUpvote db p u).posts, 0 ≤ q.upvotes
      unfold deleteUpvote
      exact foldlDeleteTrigger_posts_nonneg _ _ _ h
    · rw [toggle_eq_of_not_mem hmem]
      intro q hq
      have hq2 : q ∈ bumpUpvotes db.posts p (fun v => v + 1) := hq
      exact bumpUpvotes_nonneg (fun y hy => by omega) h q hq2

/-- In every reachable state the `post_upvotes` pairs are distinct. -/
theorem reachable_upvoteRows_nodup {db : ForumDB} (h : Reachable db) :
    db.upvoteRows.Nodup := by
  induction h with
  | init => exact List.nodup_nil
  | step hr hs ih => exact dbStep_upvoteRows_nodup hs ih

/-! Claim theorems for the forum database. -/

/-- C4: in every reachable database state there is at most one upvote row
per `(post, user)` pair — the UNIQUE constraint holds initially and every
operation, `toggle_post_upvote` included, preserves it. -/
theorem upvote_unique_per_pair (db : ForumDB) (h : Reachable db)
    (p u : Nat) :
    (db.upvoteRows.filter (fun r => r = (p, u))).length ≤ 1 := by
  have hnd := reachable_upvoteRows_nodup h
  by_cases hmem : (p, u) ∈ db.upvoteRows
  · rw [filter_eq_singleton_of_nodup_mem hnd hmem]
    exact Nat.le_refl 1
  · rw [filter_eq_nil_of_not_mem hmem]
    exact Nat.zero_le 1

/-- Witness for C4 at a state reached by creating a post and toggling an
upvote onto it. -/
theorem upvote_unique_per_pair_witness :
    ((toggle_post_upvote ⟨[⟨1, 0⟩], []⟩ 1 7).1.upvoteRows.filter
      (fun r => r = (1, 7))).length ≤ 1 :=
  upvote_unique_per_pair _
    (Reachable.step
      (Reachable.step Reachable.init
        (DBStep.insertPostStep forumInit ⟨1, 0⟩ ⟨[⟨1, 0⟩], []⟩ (by decide)))
      (DBStep.toggleStep ⟨[⟨1, 0⟩], []⟩ 1 7))
    1 7

/-- C5: in every reachable database state every forum post's upvote
counter is non-negative — the CHECK constraint admits only non-negative
inserts, the insert trigger increments, and the delete trigger decrements
clamped at zero via `GREATEST(upvotes - 1, 0)`. -/
theorem forum_upvotes_nonneg (db : ForumDB) (h : Reachable db) :
    ∀ post ∈ db.posts, 0 ≤ post.upvotes := by
  induction h with
  | init => intro post hpost; cases hpost
  | step hr hs ih => exact dbStep_posts_nonneg hs ih

/-- Witness for C5 at the post of the state reached by creating a post
and upvoting it (counter bumped to 1 by the trigger). -/
theorem forum_upvotes_nonneg_witness :
    0 ≤ (⟨1, 1⟩ : ForumPost).upvotes :=
  forum_upvotes_nonneg (toggle_post_upvote ⟨[⟨1, 0⟩], []⟩ 1 7).1
    (Reachable.step
      (Reachable.step Reachable.init
        (DBStep.insertPostStep forumInit ⟨1, 0⟩ ⟨[⟨1, 0⟩], []⟩ (by decide)))
      (DBStep.toggleStep ⟨[⟨1, 0⟩], []⟩ 1 7))
    ⟨1, 1⟩ (by decide)

/-- C3: `toggle_post_upvote` returns TRUE exactly when no row for the pair
existed (and then inserts one), FALSE exactly when one existed (and then
deletes the pair's rows), and toggling twice restores the pair's rows to
their original state (with the UNIQUE constraint guaranteeing at most one
row beforehand). -/
theorem toggle_post_upvote_spec (db : ForumDB) (p u : Nat)
    (h : db.upvoteRows.Nodup) :
    ((toggle_post_upvote db p u).2 = true ↔ (p, u) ∉ db.upvoteRows) ∧
    ((p, u) ∉ db.upvoteRows →
      (toggle_post_upvote db p u).1.upvoteRows = (p, u) :: db.upvoteRows) ∧
    ((p, u) ∈ db.upvoteRows →
      (toggle_post_upvote db p u).1.upvoteRows =
        db.upvoteRows.filter (fun r => r ≠ (p, u))) ∧
    ((toggle_post_upvote (toggle_post_upvote db p u).1 p u).1.upvoteRows.filter
        (fun r => r = (p, u)) =
      db.upvoteRows.filter (fun r => r = (p, u))) := by
  by_cases hmem : (p, u) ∈ db.upvoteRows
  · have hrows1 : (toggle_post_upvote db p u).1.upvoteRows =
        db.upvoteRows.filter (fun r => r ≠ (p, u)) := by
      rw [toggle_eq_of_mem hmem]
      exact deleteUpvote_upvoteRows db p u
    have hnot1 : (p, u) ∉ (toggle_post_upvote db p u).1.upvoteRows := by
      rw [hrows1]
      intro hc
      simp [List.mem_filter] at hc
    refine ⟨?_, fun hc => absurd hmem hc, fun _ => hrows1, ?_⟩
    · rw [toggle_eq_of_mem hmem]
      simp [hmem]
    · have hrows2 : (toggle_post_upvote (toggle_post_upvote db p u).1 p
          u).1.upvoteRows =
          (p, u) :: (toggle_post_upvote db p u).1.upvoteRows := by
        rw [toggle_eq_of_not_mem hnot1]
        rfl
      rw [hrows2, hrows1]
      have hl : (((p, u) :: db.upvoteRows.filter
          (fun r => r ≠ (p, u))) : List (Nat × Nat)).filter
          (fun r => r = (p, u)) = [(p, u)] := by
        simp only [List.filter_cons, decide_eq_true_eq, ite_true]
        rw [filter_eq_nil_of_not_mem]
        intro hc
        simp [List.mem_filter] at hc
      rw [hl, filter_eq_singleton_of_nodup_mem h hmem]
  · have hrows1 : (toggle_post_upvote db p u).1.upvoteRows =
        (p, u) :: db.upvoteRows := by
      rw [toggle_eq_of_not_mem hmem]
      rfl
    have hmem1 : (p, u) ∈ (toggle_post_upvote db p u).1.upvoteRows := by
      rw [hrows1]; exact List.mem_cons_self _ _
    refine ⟨?_, fun _ => hrows1, fun hc => absurd hc hmem, ?_⟩
    · rw [toggle_eq_of_not_mem hmem]
      simp [hmem]
    · have hrows2 : (toggle_post_upvote (toggle_post_upvote db p u).1 p
          u).1.upvoteRows =
          (toggle_post_upvote db p u).1.upvoteRows.filter
            (fun r => r ≠ (p, u)) := by
        rw [toggle_eq_of_mem hmem1]
        exact deleteUpvote_upvoteRows _ p u
      rw [hrows2, hrows1]
      have hz : ((((p, u) :: db.upvoteRows).filter
          (fun r => r ≠ (p, u))).filter (fun r => r = (p, u))) = [] := by
        apply filter_eq_nil_of_not_mem
        intro hc
        simp [List.mem_filter] at hc
      rw [hz, eq_comm]
      exact filter_eq_nil_of_not_mem hmem

/-- Witness for C3 at a database holding one post and one upvote row. -/
theorem toggle_post_upvote_spec_witness :
    (toggle_post_upvote
        (toggle_post_upvote ⟨[⟨1, 0⟩], [(1, 7)]⟩ 1 7).1 1 7).1.upvoteRows.filter
      (fun r => r = (1, 7)) =
    ([(1, 7)] : List (Nat × Nat)).filter (fun r => r = (1, 7)) :=
  (toggle_post_upvote_spec ⟨[⟨1, 0⟩], [(1, 7)]⟩ 1 7 (by decide)).2.2.2

/-- C10: `signOut` is atomic over local auth state — it returns
`{ error: null }` and clears `user` and `profile` exactly when the backend
sign-out succeeds, and on a backend error returns that error message with
`user` and `profile` unchanged; being a total function of the backend
result, it never throws. -/
theorem signOut_atomic (backendError : Option String)
    (user : Option String) (profile : Option Profile) :
    ((signOut backendError user profile).1 = none ↔ backendError = none) ∧
    (backendError = none →
      signOut backendError user profile = (none, none, none)) ∧
    (∀ msg, backendError = some msg →
      signOut backendError user profile = (some msg, user, profile)) := by
  cases backendError <;> simp [signOut]

/-- Witness for C10 at a concrete backend error: the state is left
unchanged and the error message returned. -/
theorem signOut_atomic_witness :
    signOut (some "network down") (some "u1")
        (some (createFallbackProfile "u1")) =
      (some "network down", some "u1", some (createFallbackProfile "u1")) :=
  (signOut_atomic (some "network down") (some "u1")
    (some (createFallbackProfile "u1"))).2.2 "network down" rfl

/-- C6 counterexample: the `valid_expiry_date` CHECK accepts an insert
whose row has `publish_date = NULL` and a non-NULL `expiry_date` (the SQL
comparison evaluates to UNKNOWN, which a CHECK does not reject), yet that
row does not satisfy the claimed expiry-after-publish ordering. -/
theorem notice_expiry_counterexample :
    insertNotice [] ⟨none, some 5⟩ = some [⟨none, some 5⟩] ∧
    ¬ expiryAfterPublishOrdering ⟨none, some 5⟩ := by
  constructor
  · rfl
  · intro h
    rcases h with h | ⟨e, p, _, hp, _⟩
    · simp at h
    · simp at hp

/-- C6 amended: for every notice row whose `publish_date` is non-NULL, the
CHECK passes exactly when `expiry_date` is NULL or strictly greater than
`publish_date`, and an insert or update is admitted exactly when the CHECK
passes — so no insert or update can produce a notice with a non-NULL
`publish_date` violating the ordering; a row with NULL `publish_date` and
non-NULL `expiry_date` is however accepted. -/
theorem notice_expiry_check_spec (pd : Int) (r : NoticeRow)
    (h : r.publish_date = some pd) :
    (validExpiryCheck r = true ↔
      (r.expiry_date = none ∨ ∃ e, r.expiry_date = some e ∧ pd < e)) ∧
    (∀ db, (insertNotice db r).isSome = validExpiryCheck r) ∧
    (∀ db i, (updateNotice db i r).isSome = validExpiryCheck r) := by
  refine ⟨?_, ?_, ?_⟩
  · cases hexp : r.expiry_date with
    | none =>
      simp [validExpiryCheck, sqlIsNull, sqlOr, checkPasses, hexp]
    | some e =>
      by_cases hlt : pd < e
      · simp [validExpiryCheck, sqlIsNull, sqlGt, sqlOr, checkPasses,
          hexp, h, hlt]
      · simp [validExpiryCheck, sqlIsNull, sqlGt, sqlOr, checkPasses,
          hexp, h, hlt]
  · intro db
    unfold insertNotice
    split <;> simp_all
  · intro db i
    unfold updateNotice
    split <;> simp_all

/-- Witness for C6 amended at a row with `publish_date = 0`,
`expiry_date = 5`. -/
theorem notice_expiry_check_spec_witness :
    (validExpiryCheck ⟨some 0, some 5⟩ = true ↔
      ((⟨some 0, some 5⟩ : NoticeRow).expiry_date = none ∨
        ∃ e, (⟨some 0, some 5⟩ : NoticeRow).expiry_date = some e ∧
          (0 : Int) < e)) :=
  (notice_expiry_check_spec 0 ⟨some 0, some 5⟩ rfl).1

/-- C7: the auth provider's effect installs a periodic timer on the fixed
90-minute interval; each tick requests the current session and requests
`refreshSession` exactly when a session exists; the provider's cleanup
cancels the timer. -/
theorem token_refresh_schedule :
    setupTokenRefresh.intervalMs = 90 * 60 * 1000 ∧
    setupTokenRefresh.active = true ∧
    (∀ s : Option Session, refreshTick s = true ↔ s.isSome = true) ∧
    (providerCleanup setupTokenRefresh).active = false := by
  refine ⟨rfl, rfl, ?_, rfl⟩
  intro s
  exact Iff.rfl

/-- C8: the notice form's validation rejects (and `handleSubmit` does not
reach `onSubmit`) exactly when the trimmed title is empty, the trimmed
content is empty, the title exceeds 200 characters, or the content exceeds
2000 characters; every input passing all four checks is accepted. -/
theorem notice_form_validation (fd : NoticeFormData) :
    ((validateForm fd).1 = false ↔
      (fd.title.trim = "" ∨ fd.content.trim = "" ∨
        fd.title.length > 200 ∨ fd.content.length > 2000)) ∧
    (handleSubmitCallsOnSubmit fd = false ↔ (validateForm fd).1 = false) := by
  constructor
  · unfold validateForm
    split_ifs with h1 h2 h3 h4 <;> simp_all
  · exact Iff.rfl

/-- C9 counterexample: in `handleDeletePost` a backend failure is toasted
but the caught error is re-thrown, so an exception does escape that forum
page operation. -/
theorem forum_delete_rethrows_counterexample :
    (handleDeletePost (.err "db failure")).toasts =
      ["Failed to delete post"] ∧
    (handleDeletePost (.err "db failure")).thrown = some "db failure" :=
  ⟨rfl, rfl⟩

/-- C9 amended: backend failures in fetching posts and toggling an upvote
are caught locally, converted to a toast and swallowed (no exception
escapes); a backend failure in deleting a post is also toasted, but the
error is re-thrown to the caller. -/
theorem forum_error_handling (e : String) (postId : Nat)
    (upvotes : List Nat) :
    ((fetchPosts (.err e)).1.toasts = ["Failed to load posts"] ∧
      (fetchPosts (.err e)).1.thrown = none) ∧
    ((handleUpvote (some "u") postId (.err e) upvotes).1.toasts =
        ["Failed to update upvote"] ∧
      (handleUpvote (some "u") postId (.err e) upvotes).1.thrown = none) ∧
    ((handleDeletePost (.err e)).toasts = ["Failed to delete post"] ∧
      (handleDeletePost (.err e)).thrown = some e) :=
  ⟨⟨rfl, rfl⟩, ⟨rfl, rfl⟩, rfl, rfl⟩

end CampusConnect
